import Mathlib

/-!
Shallow embedding of the JiraTriage reasoning-plane core:
the `EnhancedPolicyEngine` (src/ReasoningPlane/api/enhanced_policy_engine.py)
and the `JIRATriageAgent` staged pipeline
(src/ReasoningPlane/api/langgraph_agent.py).

Modelling conventions:
- Python floats are modelled as `ℚ`; all literals (0.85, 0.7, 0.9, ...) are
  exact rationals.
- `datetime`/`timedelta` values are modelled as rational numbers of hours;
  the evaluation-time clock read (`datetime.utcnow()`) becomes an explicit
  `now : ℚ` parameter.
- External collaborator calls (LLM classify/generate, Azure AI Search,
  Cosmos decision logging) are modelled as `Except String _` oracle values
  supplied to each node: `.ok v` is a successful call returning `v`,
  `.error e` is a raised exception, absorbed exactly where the source has a
  `try/except`.
- Python dict `.get(key, default)` on possibly-missing keys is modelled with
  `Option` plus `Option.getD`.
-/

namespace JiraTriage

/-- Department policy entry of `EnhancedPolicyEngine.department_policies`. -/
structure DeptPolicy where
  requires_human_review : Bool
  min_confidence : ℚ
  sla_multiplier : ℚ
  deriving Repr, DecidableEq

/-- `EnhancedPolicyEngine.confidence_threshold` (the default minimum
confidence when a department has no policy entry). -/
def confidence_threshold : ℚ := 0.7

/-- `EnhancedPolicyEngine.external_domain_whitelist`. -/
def external_domain_whitelist : List String :=
  ["company.com", "internal.company.com", "corp.company.com"]

/-- `EnhancedPolicyEngine.department_policies` as a partial map from
department name to policy entry (`dict.get` with no entry gives `none`). -/
def department_policies (department : String) : Option DeptPolicy :=
  if department = "Legal" then some ⟨true, 0.85, 0.5⟩
  else if department = "Finance" then some ⟨true, 0.85, 0.75⟩
  else if department = "HR" then some ⟨false, 0.70, 1⟩
  else if department = "IT" then some ⟨false, 0.70, 1⟩
  else none

/-- `dept_policy.get("min_confidence", self.confidence_threshold)` after
`dept_policy = self.department_policies.get(department, \x7b\x7d)`. -/
def deptMinConfidence (department : String) : ℚ :=
  match department_policies department with
  | some p => p.min_confidence
  | none => confidence_threshold

/-- `dept_policy.get("requires_human_review", False)`. -/
def deptMandatesReview (department : String) : Bool :=
  match department_policies department with
  | some p => p.requires_human_review
  | none => false

/-- `dept_policy.get("sla_multiplier", 1.0)`. -/
def deptSlaMultiplier (department : String) : ℚ :=
  match department_policies department with
  | some p => p.sla_multiplier
  | none => 1

/-- Python `str.split(sep)` for a one-character separator, on the
character list underlying a string: `splitOnChar '@' "a@b".data =
[['a'], ['b']]`. -/
def splitOnChar (sep : Char) : List Char → List (List Char)
  | [] => [[]]
  | c :: cs =>
    match splitOnChar sep cs with
    | [] => [[]]
    | chunk :: rest =>
      if c = sep then [] :: chunk :: rest
      else (c :: chunk) :: rest

/-- `EnhancedPolicyEngine._is_external_email`: empty or at-sign-free strings
are internal; otherwise the lowercased `email.split("@")[1]` (the text
between the first and second at sign, or to the end) must end with a
whitelisted suffix. String operations are carried out on the underlying
character lists. -/
def is_external_email (email : String) : Bool :=
  if email = "" || !(email.data.contains '@') then false
  else
    let domain := ((splitOnChar '@' email.data).getD 1 []).map Char.toLower
    !(external_domain_whitelist.any (fun allowed => allowed.data.isSuffixOf domain))

/-- The `high_risk_pii` list of `evaluate_ticket`. -/
def high_risk_pii : List String :=
  ["us_ssn_detected", "credit_card_detected", "crypto_detected", "us_passport_detected"]

/-- `any(flag in redaction_flags for flag in high_risk_pii)`. -/
def highRiskPII (redaction_flags : List String) : Bool :=
  high_risk_pii.any (fun flag => redaction_flags.contains flag)

/-- `EnhancedPolicyEngine._should_auto_escalate`. -/
def should_auto_escalate (priority : String) (confidence : ℚ)
    (already_flagged : Bool) : Bool :=
  if priority = "Critical" ∧ confidence < 0.9 then true
  else if priority = "High" ∧ confidence < 0.6 then true
  else if already_flagged ∧ (priority = "Critical" ∨ priority = "High") then true
  else false

/-- Result of `EnhancedPolicyEngine._predict_sla`; timedeltas are in hours,
so `target_hours` is already `adjusted_sla.total_seconds() / 3600`. -/
structure SLAPrediction where
  target_hours : ℚ
  warning_time : ℚ
  breach_time : ℚ
  adjusted_for_department : Bool
  deriving Repr, DecidableEq

/-- The `base_sla` lookup of `_predict_sla`: `SLATarget` hours per priority,
defaulting to `SLATarget.MEDIUM` for unrecognised priorities. -/
def base_sla (priority : String) : ℚ :=
  if priority = "Critical" then 1
  else if priority = "High" then 4
  else if priority = "Medium" then 24
  else if priority = "Low" then 72
  else 24

/-- `EnhancedPolicyEngine._predict_sla` with the clock read passed in as
`now` (hours). -/
def predict_sla (priority department : String) (now : ℚ) : SLAPrediction :=
  let adjusted_sla := base_sla priority * deptSlaMultiplier department
  { target_hours := adjusted_sla
    warning_time := now + adjusted_sla * 0.75
    breach_time := now + adjusted_sla
    adjusted_for_department := deptSlaMultiplier department ≠ 1 }

/-- The dict returned by `EnhancedPolicyEngine.evaluate_ticket`.
`escalation_reason` keeps the source's reason strings except that the
numeric f-string interpolation of confidence/threshold is not reproduced. -/
structure PolicyDecision where
  policy_flags : List String
  requires_human_review : Bool
  escalation_reason : List String
  sla_target : ℚ
  sla_warning_time : ℚ
  sla_breach_time : ℚ
  recommended_assignee : Option String
  auto_escalate : Bool
  deriving Repr, DecidableEq

/-- `EnhancedPolicyEngine.evaluate_ticket`. Arguments are the values the
source extracts from its dict parameters: `department`, `priority`,
`confidence` from `classification`, `reporter` and `redaction_flags` from
`ticket_data`, the incoming `policy_flags` list, and
`classification.get("suggested_assignee")`. Flags are appended in source
order: confidence gate, external contact, high-sensitivity PII, department
mandate, critical marker, then auto-escalation. -/
def evaluate_ticket (department priority : String) (confidence : ℚ)
    (reporter : String) (redaction_flags policy_flags : List String)
    (suggested_assignee : Option String) (now : ℚ) : PolicyDecision :=
  let dept_min_confidence := deptMinConfidence department
  let gate : Bool := confidence < dept_min_confidence
  let ext : Bool := is_external_email reporter
  let pii : Bool := highRiskPII redaction_flags
  let mandate : Bool := deptMandatesReview department
  let crit : Bool := priority = "Critical"
  let requires_human_review : Bool := gate || ext || pii || mandate
  let auto : Bool := should_auto_escalate priority confidence requires_human_review
  let enhanced_flags :=
    policy_flags
      ++ (if gate then ["low_confidence_classification"] else [])
      ++ (if ext then ["external_contact_detected"] else [])
      ++ (if pii then ["high_sensitivity_pii"] else [])
      ++ (if mandate then ["department_policy_requires_review"] else [])
      ++ (if crit then ["critical_priority_escalation"] else [])
      ++ (if auto then ["auto_escalated"] else [])
  let escalation_reason :=
    (if gate then ["Confidence below threshold"] else [])
      ++ (if ext then ["External email address detected"] else [])
      ++ (if pii then ["High-sensitivity PII detected"] else [])
      ++ (if mandate then [department ++ " department requires human review"] else [])
      ++ (if crit then ["Critical priority ticket"] else [])
      ++ (if auto then ["Automatic escalation triggered"] else [])
  let sla := predict_sla priority department now
  { policy_flags := enhanced_flags
    requires_human_review := requires_human_review
    escalation_reason := escalation_reason
    sla_target := sla.target_hours
    sla_warning_time := sla.warning_time
    sla_breach_time := sla.breach_time
    recommended_assignee := suggested_assignee
    auto_escalate := enhanced_flags.contains "auto_escalated" }

/-- `EnhancedPolicyEngine.get_escalation_path`. -/
def get_escalation_path (department team : String) : List String :=
  let path? : Option (List String) :=
    if department = "IT" then
      if team = "DBA" then some ["dba-lead@company.com", "it-director@company.com", "cto@company.com"]
      else if team = "Security" then some ["security-lead@company.com", "ciso@company.com", "cto@company.com"]
      else if team = "DevOps" then some ["devops-lead@company.com", "it-director@company.com"]
      else none
    else if department = "HR" then
      if team = "Onboarding" then some ["hr-lead@company.com", "hr-director@company.com"]
      else if team = "Payroll" then some ["payroll-lead@company.com", "finance-director@company.com"]
      else none
    else if department = "Finance" then
      if team = "Accounting" then some ["accounting-lead@company.com", "cfo@company.com"]
      else none
    else if department = "Legal" then
      if team = "Contracts" then some ["legal-lead@company.com", "general-counsel@company.com"]
      else none
    else none
  path?.getD ["support@company.com", "escalations@company.com"]

/-- The LangGraph `TicketState` (langgraph_agent.py). The `messages`
channel (opaque LangChain message objects used only for tracing) is not
modelled. -/
structure TicketState where
  ticket_id : String
  issue_key : String
  summary : String
  description : String
  issue_type : String
  priority : String
  reporter : String
  redaction_flags : List String
  department : String
  team : String
  suggested_priority : String
  suggested_assignee : String
  classification_confidence : ℚ
  retrieved_docs : List String
  generated_comment : String
  policy_flags : List String
  requires_human_review : Bool
  deriving Repr, DecidableEq

/-- The JSON object parsed from the classifier LLM response in
`classify_node`; each key may be absent (`classification.get`). -/
structure ClassifyResult where
  department : Option String
  team : Option String
  suggested_priority : Option String
  suggested_assignee : Option String
  confidence : Option ℚ
  deriving Repr, DecidableEq

/-- One hit returned by `search_manager.hybrid_search`; only the keys
`retrieve_node` reads (`id`, `title`), each possibly absent. -/
structure SearchResult where
  id : Option String
  title : Option String
  deriving Repr, DecidableEq

/-- `JIRATriageAgent.classify_node`: on a successful LLM call the parsed
fields (with their `.get` defaults) are merged into the state; on any
exception the deterministic fallback classification is used. -/
def classify_node (outcome : Except String ClassifyResult)
    (state : TicketState) : TicketState :=
  match outcome with
  | .ok c =>
      { state with
        department := c.department.getD "General"
        team := c.team.getD "Support"
        suggested_priority := c.suggested_priority.getD state.priority
        suggested_assignee := c.suggested_assignee.getD "support@company.com"
        classification_confidence := c.confidence.getD 0.5 }
  | .error _ =>
      { state with
        department := "General"
        team := "Support"
        suggested_priority := state.priority
        suggested_assignee := "support@company.com"
        classification_confidence := 0 }

/-- The doc-reference formatting of `retrieve_node`'s success branch:
`f"\x7bresult.get('id', 'unknown')\x7d: \x7bresult.get('title', 'Untitled')\x7d"`. -/
def formatSearchResults (results : List SearchResult) : List String :=
  results.map (fun r => r.id.getD "unknown" ++ ": " ++ r.title.getD "Untitled")

/-- `JIRATriageAgent.retrieve_node`: a successful search with hits keeps the
first three formatted hits; a successful but empty search falls back to two
synthetic department KB references; an exception falls back to the single
`(fallback)` reference. Only `retrieved_docs` is written. -/
def retrieve_node (outcome : Except String (List SearchResult))
    (state : TicketState) : TicketState :=
  let department := state.department
  match outcome with
  | .ok search_results =>
      if search_results.isEmpty then
        { state with retrieved_docs :=
            [department ++ "-KB-001: General Support Guidelines",
             department ++ "-KB-002: Escalation Procedures"] }
      else
        { state with retrieved_docs := formatSearchResults (search_results.take 3) }
  | .error _ =>
      { state with retrieved_docs :=
          [department ++ "-KB-001: General Support Guidelines (fallback)"] }

/-- `JIRATriageAgent.generate_node`: a successful LLM call stores its text;
an exception stores the templated fallback comment. -/
def generate_node (outcome : Except String String)
    (state : TicketState) : TicketState :=
  match outcome with
  | .ok text => { state with generated_comment := text }
  | .error _ =>
      { state with generated_comment :=
          "This ticket has been received and classified as " ++ state.department
            ++ " - " ++ state.team ++ ". Assigning to " ++ state.suggested_assignee
            ++ " for review." }

/-- `JIRATriageAgent.policy_node`: the try-block calls
`policy_engine.evaluate_ticket` with `policy_flags=[]` and a classification
dict holding only department / suggested_priority / confidence (so
`suggested_assignee` is absent); the `outcome` oracle says whether that
evaluation raises. On exception the fail-safe update is returned. -/
def policy_node (outcome : Except String Unit) (now : ℚ)
    (state : TicketState) : TicketState :=
  match outcome with
  | .ok _ =>
      let evaluation :=
        evaluate_ticket state.department state.suggested_priority
          state.classification_confidence state.reporter state.redaction_flags
          [] none now
      { state with
        policy_flags := evaluation.policy_flags
        requires_human_review := evaluation.requires_human_review }
  | .error _ =>
      { state with
        policy_flags := ["policy_evaluation_error"]
        requires_human_review := true }

/-- One pipeline run's collaborator outcomes plus the policy stage's clock
read. -/
structure Oracles where
  classify : Except String ClassifyResult
  retrieve : Except String (List SearchResult)
  generate : Except String String
  policy : Except String Unit
  now : ℚ
  deriving Repr

/-- The compiled LangGraph workflow: classify → retrieve → generate →
policy → END, with no branching or re-entry. -/
def run_pipeline (o : Oracles) (state : TicketState) : TicketState :=
  policy_node o.policy o.now
    (generate_node o.generate
      (retrieve_node o.retrieve
        (classify_node o.classify state)))

/-- The caller-supplied ticket dict consumed by `JIRATriageAgent.process`;
every key may be absent (`ticket_data.get`). -/
structure TicketInput where
  ticket_id : Option String
  issue_key : Option String
  summary : Option String
  description : Option String
  issue_type : Option String
  priority : Option String
  reporter : Option String
  redaction_flags : Option (List String)
  deriving Repr, DecidableEq

/-- The `initial_state` built at the top of `process`. -/
def initial_state (t : TicketInput) : TicketState :=
  { ticket_id := t.ticket_id.getD ""
    issue_key := t.issue_key.getD ""
    summary := t.summary.getD ""
    description := t.description.getD ""
    issue_type := t.issue_type.getD ""
    priority := t.priority.getD "Medium"
    reporter := t.reporter.getD ""
    redaction_flags := t.redaction_flags.getD []
    department := ""
    team := ""
    suggested_priority := ""
    suggested_assignee := ""
    classification_confidence := 0
    retrieved_docs := []
    generated_comment := ""
    policy_flags := []
    requires_human_review := false }

/-- The result dict `process` assembles from the final state. -/
structure TriageResult where
  ticket_id : String
  issue_key : String
  department : String
  team : String
  suggested_priority : String
  suggested_assignee : String
  classification_confidence : ℚ
  generated_comment : String
  citations : List String
  policy_flags : List String
  confidence : ℚ
  model_used : String
  requires_human_review : Bool
  deriving Repr, DecidableEq

/-- Assembly of the `result` dict in `process` from the final state. -/
def mk_result (s : TicketState) : TriageResult :=
  { ticket_id := s.ticket_id
    issue_key := s.issue_key
    department := s.department
    team := s.team
    suggested_priority := s.suggested_priority
    suggested_assignee := s.suggested_assignee
    classification_confidence := s.classification_confidence
    generated_comment := s.generated_comment
    citations := s.retrieved_docs
    policy_flags := s.policy_flags
    confidence := s.classification_confidence
    model_used := "gpt-5-langgraph"
    requires_human_review := s.requires_human_review }

/-- `JIRATriageAgent.process`: build the initial state, run the graph,
assemble the result, then try `decision_logger.log_decision`; a logging
exception (`logOutcome = .error _`) is printed and swallowed, and the
result is returned either way. -/
def process (o : Oracles) (logOutcome : Except String Unit)
    (t : TicketInput) : TriageResult :=
  let final_state := run_pipeline o (initial_state t)
  let result := mk_result final_state
  match logOutcome with
  | .ok _ => result
  | .error _ => result

/-- Spec-side restatement of the SLA base target per priority
(Critical = 1h, High = 4h, Medium = 24h, Low = 72h), for comparison with
`predict_sla`. -/
def slaBaseTargetSpec (priority : String) : ℚ :=
  if priority = "Critical" then 1
  else if priority = "High" then 4
  else if priority = "Medium" then 24
  else 72

/-- Spec-side restatement of the department SLA factor (Legal 0.5,
Finance 0.75, all other departments 1.0), for comparison with
`predict_sla`. -/
def slaDeptFactorSpec (department : String) : ℚ :=
  if department = "Legal" then 0.5
  else if department = "Finance" then 0.75
  else 1

/-- A concrete ticket state used to instantiate universally quantified
pipeline theorems. -/
def sampleState : TicketState :=
  { ticket_id := "T-1"
    issue_key := "PROJ-1"
    summary := "Database connection timeout"
    description := "Production DB times out"
    issue_type := "Bug"
    priority := "High"
    reporter := "user@company.com"
    redaction_flags := []
    department := ""
    team := ""
    suggested_priority := ""
    suggested_assignee := ""
    classification_confidence := 0
    retrieved_docs := []
    generated_comment := ""
    policy_flags := []
    requires_human_review := false }

/-- A concrete successful classification used by witnesses. -/
def sampleClassification : ClassifyResult :=
  { department := some "IT"
    team := some "DBA"
    suggested_priority := some "High"
    suggested_assignee := some "dba-lead@company.com"
    confidence := some 0.92 }

/-- Oracles for a run whose policy-stage evaluation raises. -/
def samplePolicyErrorOracles : Oracles :=
  { classify := .ok sampleClassification
    retrieve := .ok [⟨some "kb-887", some "Database Connection Troubleshooting"⟩]
    generate := .ok "Acknowledged; see kb-887."
    policy := .error "policy boom"
    now := 0 }

/-- Oracles for a run whose retrieval call raises. -/
def sampleRetrieveErrorOracles : Oracles :=
  { classify := .ok sampleClassification
    retrieve := .error "search boom"
    generate := .ok "Acknowledged."
    policy := .ok ()
    now := 0 }

/-- A concrete caller ticket dict used by witnesses. -/
def sampleTicketInput : TicketInput :=
  { ticket_id := some "T-1"
    issue_key := some "PROJ-1"
    summary := some "Database connection timeout"
    description := some "Production DB times out"
    issue_type := some "Bug"
    priority := some "High"
    reporter := some "user@company.com"
    redaction_flags := some [] }

/-- Membership in a conditional singleton list. -/
lemma mem_ite_singleton (x y : String) (b : Prop) [Decidable b] :
    (x ∈ (if b then [y] else []) ↔ b ∧ x = y) := by
  split_ifs with h <;> simp [h]

/-- The if-chain of `_should_auto_escalate` as a disjunction. -/
lemma should_auto_escalate_eq_true_iff (p : String) (c : ℚ) (b : Bool) :
    should_auto_escalate p c b = true ↔
      ((p = "Critical" ∧ c < 0.9) ∨ (p = "High" ∧ c < 0.6)
        ∨ (b = true ∧ (p = "Critical" ∨ p = "High"))) := by
  unfold should_auto_escalate
  split_ifs with h1 h2 h3 <;> simp_all

/-- Adding a listed high-risk flag makes the PII check fire. -/
lemma highRiskPII_cons (f : String) (rf : List String)
    (hf : f ∈ high_risk_pii) : highRiskPII (f :: rf) = true := by
  simp only [highRiskPII, List.any_eq_true]
  exact ⟨f, hf, by simp⟩

/-- Both Legal and Finance carry the department review mandate. -/
lemma deptMandatesReview_legal_finance (d : String)
    (hd : d = "Legal" ∨ d = "Finance") : deptMandatesReview d = true := by
  rcases hd with h | h <;> subst h <;> rfl

/-- Every base SLA target is positive. -/
lemma base_sla_pos (p : String) : 0 < base_sla p := by
  unfold base_sla
  split_ifs <;> norm_num

/-- Every department SLA multiplier is positive. -/
lemma deptSlaMultiplier_pos (d : String) : 0 < deptSlaMultiplier d := by
  unfold deptSlaMultiplier department_policies
  split_ifs <;> norm_num

end JiraTriage

namespace JiraTriage

/-- C2: `evaluate_ticket` adds `low_confidence_classification` and forces
human review exactly when the classification confidence is strictly below
the department minimum-confidence threshold; the threshold is 0.85 for
Legal and Finance and 0.70 for every other department (including
departments absent from the policy table). -/
theorem confidence_gate_rule (d dOther p : String) (c : ℚ) (rep : String)
    (rf pf : List String) (a : Option String) (now : ℚ)
    (hin : "low_confidence_classification" ∉ pf)
    (h1 : dOther ≠ "Legal") (h2 : dOther ≠ "Finance") :
    ("low_confidence_classification" ∈ (evaluate_ticket d p c rep rf pf a now).policy_flags
        ↔ c < deptMinConfidence d)
    ∧ (c < deptMinConfidence d →
        (evaluate_ticket d p c rep rf pf a now).requires_human_review = true)
    ∧ deptMinConfidence "Legal" = 0.85
    ∧ deptMinConfidence "Finance" = 0.85
    ∧ deptMinConfidence dOther = 0.70 := by
  refine ⟨?_, ?_, by norm_num +decide [deptMinConfidence, department_policies],
    by norm_num +decide [deptMinConfidence, department_policies], ?_⟩
  · simp [evaluate_ticket, List.mem_append, mem_ite_singleton, hin]
  · intro h
    simp [evaluate_ticket, h]
  · by_cases h3 : dOther = "HR" <;> by_cases h4 : dOther = "IT" <;>
      norm_num +decide [deptMinConfidence, department_policies,
        confidence_threshold, h1, h2, h3, h4]

/-- Witness for C2 at a concrete input: department IT with confidence 0.5
(below the 0.70 threshold). -/
theorem confidence_gate_rule_witness :
    ("low_confidence_classification" ∈
        (evaluate_ticket "IT" "Medium" 0.5 "user@company.com" [] [] none 0).policy_flags
        ↔ (0.5 : ℚ) < deptMinConfidence "IT")
    ∧ ((0.5 : ℚ) < deptMinConfidence "IT" →
        (evaluate_ticket "IT" "Medium" 0.5 "user@company.com" [] [] none 0).requires_human_review = true)
    ∧ deptMinConfidence "Legal" = 0.85
    ∧ deptMinConfidence "Finance" = 0.85
    ∧ deptMinConfidence "Marketing" = 0.70 :=
  confidence_gate_rule "IT" "Marketing" "Medium" 0.5 "user@company.com" [] [] none 0
    (by decide) (by decide) (by decide)

/-- C3: `evaluate_ticket` adds `auto_escalated` if and only if (a) the
suggested priority is Critical with confidence below 0.9, or (b) it is
High with confidence below 0.6, or (c) some review-forcing rule
(confidence gate, external contact, high-sensitivity PII, or department
mandate) triggered and the priority is Critical or High; and the
`auto_escalate` output equals membership of `auto_escalated` in the output
flags. -/
theorem auto_escalation_rule (d p : String) (c : ℚ) (rep : String)
    (rf pf : List String) (a : Option String) (now : ℚ)
    (hin : "auto_escalated" ∉ pf) :
    ("auto_escalated" ∈ (evaluate_ticket d p c rep rf pf a now).policy_flags
        ↔ ((p = "Critical" ∧ c < 0.9) ∨ (p = "High" ∧ c < 0.6)
            ∨ ((c < deptMinConfidence d ∨ is_external_email rep = true
                  ∨ highRiskPII rf = true ∨ deptMandatesReview d = true)
                ∧ (p = "Critical" ∨ p = "High"))))
    ∧ (evaluate_ticket d p c rep rf pf a now).auto_escalate
        = (evaluate_ticket d p c rep rf pf a now).policy_flags.contains "auto_escalated" := by
  constructor
  · simp only [evaluate_ticket, List.mem_append, mem_ite_singleton]
    simp [hin, should_auto_escalate_eq_true_iff]
    tauto
  · rfl

/-- Witness for C3: a High-priority ticket with confidence 0.5 (below 0.6)
is auto-escalated. -/
theorem auto_escalation_rule_witness :
    ("auto_escalated" ∈
        (evaluate_ticket "IT" "High" 0.5 "user@company.com" [] [] none 0).policy_flags
        ↔ (("High" = "Critical" ∧ (0.5 : ℚ) < 0.9) ∨ ("High" = "High" ∧ (0.5 : ℚ) < 0.6)
            ∨ (((0.5 : ℚ) < deptMinConfidence "IT"
                  ∨ is_external_email "user@company.com" = true
                  ∨ highRiskPII [] = true ∨ deptMandatesReview "IT" = true)
                ∧ ("High" = "Critical" ∨ "High" = "High"))))
    ∧ (evaluate_ticket "IT" "High" 0.5 "user@company.com" [] [] none 0).auto_escalate
        = (evaluate_ticket "IT" "High" 0.5 "user@company.com" [] [] none 0).policy_flags.contains
            "auto_escalated" :=
  auto_escalation_rule "IT" "High" 0.5 "user@company.com" [] [] none 0 (by decide)

/-- C5: the human-review decision is monotone — starting from any input
that already yields `requires_human_review = true`, additionally imposing
any single review-forcing condition (external reporter domain, a listed
high-risk redaction flag, sub-threshold confidence, or a Legal/Finance
department) still yields `requires_human_review = true`. -/
theorem monotone_review (d d' p : String) (c c' : ℚ) (rep rep' f : String)
    (rf pf : List String) (a : Option String) (now : ℚ)
    (hrev : (evaluate_ticket d p c rep rf pf a now).requires_human_review = true)
    (hext : is_external_email rep' = true)
    (hpii : f ∈ high_risk_pii)
    (hconf : c' < deptMinConfidence d)
    (hdept : d' = "Legal" ∨ d' = "Finance") :
    (evaluate_ticket d p c rep' rf pf a now).requires_human_review = true
    ∧ (evaluate_ticket d p c rep (f :: rf) pf a now).requires_human_review = true
    ∧ (evaluate_ticket d p c' rep rf pf a now).requires_human_review = true
    ∧ (evaluate_ticket d' p c rep rf pf a now).requires_human_review = true := by
  refine ⟨?_, ?_, ?_, ?_⟩
  · simp [evaluate_ticket, hext]
  · simp [evaluate_ticket, highRiskPII_cons f rf hpii]
  · simp [evaluate_ticket, hconf]
  · simp [evaluate_ticket, deptMandatesReview_legal_finance d' hdept]

/-- Witness for C5: an IT ticket forced into review by an external
reporter stays in review under each added condition. -/
theorem monotone_review_witness :
    (evaluate_ticket "IT" "Medium" 0.95 "other@gmail.com" [] [] none 0).requires_human_review = true
    ∧ (evaluate_ticket "IT" "Medium" 0.95 "user@gmail.com" ["us_ssn_detected"] [] none 0).requires_human_review = true
    ∧ (evaluate_ticket "IT" "Medium" 0.5 "user@gmail.com" [] [] none 0).requires_human_review = true
    ∧ (evaluate_ticket "Legal" "Medium" 0.95 "user@gmail.com" [] [] none 0).requires_human_review = true :=
  monotone_review "IT" "Legal" "Medium" 0.95 0.5 "user@gmail.com" "other@gmail.com"
    "us_ssn_detected" [] [] none 0
    (by norm_num +decide [evaluate_ticket, is_external_email, splitOnChar])
    (by decide) (by decide)
    (by norm_num +decide [deptMinConfidence, department_policies])
    (Or.inl rfl)

/-- C10: an empty or at-sign-free reporter string is treated as internal —
`_is_external_email` returns false, `external_contact_detected` is not
added, and the review decision is driven only by the other three rules. -/
theorem malformed_reporter_internal (d p : String) (c : ℚ) (email : String)
    (rf pf : List String) (a : Option String) (now : ℚ)
    (hmail : email = "" ∨ email.data.contains '@' = false)
    (hin : "external_contact_detected" ∉ pf) :
    is_external_email email = false
    ∧ "external_contact_detected" ∉ (evaluate_ticket d p c email rf pf a now).policy_flags
    ∧ (evaluate_ticket d p c email rf pf a now).requires_human_review
        = ((c < deptMinConfidence d : Bool) || highRiskPII rf || deptMandatesReview d) := by
  have hfalse : is_external_email email = false := by
    rcases hmail with h | h
    · simp [is_external_email, h]
    · have h' : '@' ∉ email.data := by simpa using h
      simp [is_external_email, h']
  refine ⟨hfalse, ?_, ?_⟩
  · simp [evaluate_ticket, List.mem_append, mem_ite_singleton, hin, hfalse]
  · simp [evaluate_ticket, hfalse]

/-- Witness for C10: the at-sign-free reporter string `helpdesk` is
internal and triggers nothing by itself. -/
theorem malformed_reporter_internal_witness :
    is_external_email "helpdesk" = false
    ∧ "external_contact_detected" ∉ (evaluate_ticket "IT" "Medium" 0.95 "helpdesk" [] [] none 0).policy_flags
    ∧ (evaluate_ticket "IT" "Medium" 0.95 "helpdesk" [] [] none 0).requires_human_review
        = (((0.95 : ℚ) < deptMinConfidence "IT" : Bool) || highRiskPII [] || deptMandatesReview "IT") :=
  malformed_reporter_internal "IT" "Medium" 0.95 "helpdesk" [] [] none 0
    (Or.inr (by decide)) (by decide)

/-- C4: for the four recognised priorities and any department,
`_predict_sla` returns the priority base target (Critical = 1h, High = 4h,
Medium = 24h, Low = 72h) times the department factor (Legal 0.5,
Finance 0.75, others 1.0), with warning at evaluation time plus 0.75 of
the adjusted target and breach at evaluation time plus the adjusted
target. -/
theorem sla_computation (p d : String) (now : ℚ)
    (hp : p = "Critical" ∨ p = "High" ∨ p = "Medium" ∨ p = "Low") :
    (predict_sla p d now).target_hours = slaBaseTargetSpec p * slaDeptFactorSpec d
    ∧ (predict_sla p d now).warning_time
        = now + 0.75 * (slaBaseTargetSpec p * slaDeptFactorSpec d)
    ∧ (predict_sla p d now).breach_time
        = now + slaBaseTargetSpec p * slaDeptFactorSpec d := by
  have hmult : deptSlaMultiplier d = slaDeptFactorSpec d := by
    by_cases h1 : d = "Legal" <;> by_cases h2 : d = "Finance" <;>
      by_cases h3 : d = "HR" <;> by_cases h4 : d = "IT" <;>
        norm_num +decide [deptSlaMultiplier, department_policies,
          slaDeptFactorSpec, h1, h2, h3, h4]
  have hbase : base_sla p = slaBaseTargetSpec p := by
    rcases hp with h | h | h | h <;> subst h <;> rfl
  refine ⟨?_, ?_, ?_⟩ <;> simp [predict_sla, hmult, hbase] <;> ring

/-- Witness for C4 at priority Low, department Finance. -/
theorem sla_computation_witness :
    (predict_sla "Low" "Finance" 0).target_hours
        = slaBaseTargetSpec "Low" * slaDeptFactorSpec "Finance"
    ∧ (predict_sla "Low" "Finance" 0).warning_time
        = 0 + 0.75 * (slaBaseTargetSpec "Low" * slaDeptFactorSpec "Finance")
    ∧ (predict_sla "Low" "Finance" 0).breach_time
        = 0 + slaBaseTargetSpec "Low" * slaDeptFactorSpec "Finance" :=
  sla_computation "Low" "Finance" 0 (Or.inr (Or.inr (Or.inr rfl)))

/-- C9: for every priority string and department, the predicted warning
time strictly precedes the breach time, and the warning-to-breach gap is a
quarter of the evaluation-to-breach interval. -/
theorem sla_ordering (p d : String) (now : ℚ) :
    (predict_sla p d now).warning_time < (predict_sla p d now).breach_time
    ∧ (predict_sla p d now).breach_time - (predict_sla p d now).warning_time
        = (1 / 4 : ℚ) * ((predict_sla p d now).breach_time - now) := by
  have hpos : 0 < base_sla p * deptSlaMultiplier d :=
    mul_pos (base_sla_pos p) (deptSlaMultiplier_pos d)
  constructor
  · simp only [predict_sla]
    nlinarith [hpos]
  · simp only [predict_sla]
    ring

/-- C1: when the Policy stage's evaluation raises, the run still completes
(the pipeline function is total and the policy node absorbs the
exception), with `policy_flags = ["policy_evaluation_error"]` and
`requires_human_review = true` in the final state. -/
theorem policy_failsafe (o : Oracles) (s : TicketState) (e : String)
    (h : o.policy = .error e) :
    (run_pipeline o s).policy_flags = ["policy_evaluation_error"]
    ∧ (run_pipeline o s).requires_human_review = true := by
  simp [run_pipeline, policy_node, h]

/-- Witness for C1 on a concrete run whose policy evaluation raises. -/
theorem policy_failsafe_witness :
    (run_pipeline samplePolicyErrorOracles sampleState).policy_flags
        = ["policy_evaluation_error"]
    ∧ (run_pipeline samplePolicyErrorOracles sampleState).requires_human_review = true :=
  policy_failsafe samplePolicyErrorOracles sampleState "policy boom" rfl

/-- C7: when the Retrieve stage's collaborator call raises, the run still
completes, the final retrieved document list is exactly the single
fallback reference built from the classified department, and the retrieve
node rewrites nothing but `retrieved_docs`. -/
theorem retrieve_failure_fallback (o : Oracles) (s t : TicketState) (e : String)
    (h : o.retrieve = .error e) :
    (run_pipeline o s).retrieved_docs
        = [(classify_node o.classify s).department
            ++ "-KB-001: General Support Guidelines (fallback)"]
    ∧ retrieve_node o.retrieve t
        = { t with retrieved_docs :=
              [t.department ++ "-KB-001: General Support Guidelines (fallback)"] } := by
  constructor
  · cases hg : o.generate <;> cases hp : o.policy <;>
      simp [run_pipeline, retrieve_node, generate_node, policy_node, h, hg, hp]
  · simp [retrieve_node, h]

/-- Witness for C7 on a concrete run whose retrieval call raises. -/
theorem retrieve_failure_fallback_witness :
    (run_pipeline sampleRetrieveErrorOracles sampleState).retrieved_docs
        = [(classify_node sampleRetrieveErrorOracles.classify sampleState).department
            ++ "-KB-001: General Support Guidelines (fallback)"]
    ∧ retrieve_node sampleRetrieveErrorOracles.retrieve sampleState
        = { sampleState with retrieved_docs :=
              [sampleState.department ++ "-KB-001: General Support Guidelines (fallback)"] } :=
  retrieve_failure_fallback sampleRetrieveErrorOracles sampleState sampleState "search boom" rfl

/-- C8: a failing decision-store append after the pipeline completes does
not change, drop, or fail the caller-facing result — `process` returns the
assembled triage result of the completed run, identical to the
successful-logging outcome. -/
theorem persistence_failure_nonfatal (o : Oracles) (t : TicketInput) (e : String) :
    process o (.error e) t = mk_result (run_pipeline o (initial_state t))
    ∧ process o (.error e) t = process o (.ok ()) t :=
  ⟨rfl, rfl⟩

/-- C6 counterexample: a concrete run in which the scoped query succeeds
with an empty result. The code substitutes two synthetic department KB
references; it does not re-run the query unscoped, so the retrieved list
differs from the formatted results of an unscoped query (here the hit
`kb-887` that the unscoped knowledge base would return). -/
theorem retrieve_empty_no_unscoped_cex :
    (retrieve_node (Except.ok [])
        (classify_node (Except.ok sampleClassification) sampleState)).retrieved_docs
      = ["IT-KB-001: General Support Guidelines", "IT-KB-002: Escalation Procedures"]
    ∧ (retrieve_node (Except.ok [])
        (classify_node (Except.ok sampleClassification) sampleState)).retrieved_docs
      ≠ formatSearchResults [⟨some "kb-887", some "Database Connection Troubleshooting"⟩] := by
  constructor
  · rfl
  · decide

/-- C6 amended: when the scoped retrieval query completes without error
but returns an empty result, the Retrieve stage falls back to the two
synthetic department KB references (no unscoped re-query is performed). -/
theorem retrieve_empty_synthetic_fallback (s : TicketState) :
    (retrieve_node (Except.ok []) s).retrieved_docs
      = [s.department ++ "-KB-001: General Support Guidelines",
         s.department ++ "-KB-002: Escalation Procedures"] := by
  simp [retrieve_node]

end JiraTriage
